/- Verification development for the G11 Postfinance statement parser
   (l10n_ch_account_statement_base_import/parser/g11_file_parser.py).

   The parser is shallowly embedded: Python exceptions become an explicit
   error type carried by `Except`, instance state (`self.lines`,
   `self.statements`, `self.currency_code`) becomes an explicit record, and
   Python floats become exact rationals.  Amounts in this format are integer
   cents divided by 100; for such values IEEE double division by 100 is
   correctly rounded and round-trips through two-decimal display, so the
   rational model coincides with the observable float behaviour. -/
import Mathlib

set_option maxRecDepth 100000

/-- Classes of Python runtime errors the parser can raise.  `indexError` and
`keyError` are both subclasses of Python's `LookupError`; `valueError` covers
failed `float`/`int`/`strptime` conversions. -/
inductive PyErr where
  | indexError : PyErr
  | valueError : PyErr
  | keyError : String → PyErr
  deriving DecidableEq

instance {ε α : Type} [DecidableEq ε] [DecidableEq α] : DecidableEq (Except ε α) := fun a b =>
  match a, b with
  | Except.ok x, Except.ok y =>
    if h : x = y then Decidable.isTrue (by rw [h])
    else Decidable.isFalse (fun hc => h (Except.ok.inj hc))
  | Except.error x, Except.error y =>
    if h : x = y then Decidable.isTrue (by rw [h])
    else Decidable.isFalse (fun hc => h (Except.error.inj hc))
  | Except.ok _, Except.error _ => Decidable.isFalse (fun hc => Except.noConfusion hc)
  | Except.error _, Except.ok _ => Decidable.isFalse (fun hc => Except.noConfusion hc)

/-- Auxiliary for `pySplitlines`: accumulates the current line (reversed). -/
def splitlinesAux : List Char → List Char → List String
  | [], cur => if cur.isEmpty then [] else [⟨cur.reverse⟩]
  | '\r' :: '\n' :: rest, cur => (⟨cur.reverse⟩ : String) :: splitlinesAux rest []
  | '\r' :: rest, cur => (⟨cur.reverse⟩ : String) :: splitlinesAux rest []
  | '\n' :: rest, cur => (⟨cur.reverse⟩ : String) :: splitlinesAux rest []
  | c :: rest, cur => splitlinesAux rest (c :: cur)

/-- Python `str.splitlines()` restricted to the line breaks that occur in this
format (`\n`, `\r`, `\r\n`); a trailing break produces no extra empty line and
the empty string yields no lines at all. -/
def pySplitlines (s : String) : List String := splitlinesAux s.data []

/-- Python slicing `s[a:b]` for `0 ≤ a ≤ b`: silently truncated at the end of
the string, never raising. -/
def pySlice (s : String) (a b : Nat) : String := ⟨(s.data.drop a).take (b - a)⟩

/-- Python indexing `s[i]`: `none` models the `IndexError` raised when the
index is out of range. -/
def charAt (s : String) (i : Nat) : Option Char := s.data[i]?

/-- Numeric value of a digit character. -/
def digitVal (c : Char) : Nat := c.toNat - '0'.toNat

/-- Value of a digit string, most significant digit first. -/
def digitsToNat (cs : List Char) : Nat := cs.foldl (fun a c => 10 * a + digitVal c) 0

/-- Split a character list at the first `'.'`; the remainder (if any) is kept
verbatim, so a second dot is caught later by the digit check. -/
def splitDot : List Char → List Char × Option (List Char)
  | [] => ([], none)
  | c :: rest =>
    if c = '.' then ([], some rest)
    else
      let p := splitDot rest
      (c :: p.1, p.2)

/-- Python `float(s)` on the subset of inputs this format produces: an
optional sign, digits with at most one decimal point.  Exponent forms,
`inf`/`nan`, underscores and surrounding whitespace — which never occur in
fixed-width numeric fields — are not modelled.  `none` models `ValueError`. -/
def pyfloat (s : String) : Option ℚ :=
  let p : ℚ × List Char :=
    match s.data with
    | [] => (1, [])
    | c :: r => if c = '+' then (1, r) else if c = '-' then (-1, r) else (1, c :: r)
  let q := splitDot p.2
  let fp := q.2.getD []
  if (q.1 ++ fp) ≠ [] ∧ (q.1 ++ fp).all Char.isDigit then
    some (p.1 * (digitsToNat (q.1 ++ fp) : ℚ) / (10 : ℚ) ^ fp.length)
  else none

/-- Python `int(s)` on the subset of inputs this format produces: an optional
sign followed by digits.  `none` models `ValueError`. -/
def pyint (s : String) : Option Int :=
  let p : Int × List Char :=
    match s.data with
    | [] => (1, [])
    | c :: r => if c = '+' then (1, r) else if c = '-' then (-1, r) else (1, c :: r)
  if p.2 ≠ [] ∧ p.2.all Char.isDigit then some (p.1 * (digitsToNat p.2 : Int)) else none

/-- The amount decoding step of `_parse_transactions`:
`amount = float(line[45:57]) / 100`, applied to the already-sliced text. -/
def decodeAmount (s : String) : Option ℚ := (pyfloat s).map (fun a => a / 100)

/-- Gregorian leap years, as `datetime.date` computes them. -/
def isLeapYear (y : Nat) : Bool := y % 4 == 0 && (y % 100 != 0 || y % 400 == 0)

/-- Days in a month, as `datetime.date` validates them. -/
def daysInMonth (y m : Nat) : Nat :=
  if m = 2 then (if isLeapYear y then 29 else 28)
  else if m = 4 ∨ m = 6 ∨ m = 9 ∨ m = 11 then 30 else 31

/-- The prefix matches of CPython's `%m` pattern `1[0-2]|0[1-9]|[1-9]`, in
regex preference order, each with the remaining input. -/
def monthAlts (cs : List Char) : List (Nat × List Char) :=
  (match cs with
   | c1 :: c2 :: r =>
     (if c1 = '1' ∧ ('0' ≤ c2 ∧ c2 ≤ '2') then [(10 + digitVal c2, r)] else []) ++
     (if c1 = '0' ∧ ('1' ≤ c2 ∧ c2 ≤ '9') then [(digitVal c2, r)] else [])
   | _ => []) ++
  (match cs with
   | c1 :: r => if '1' ≤ c1 ∧ c1 ≤ '9' then [(digitVal c1, r)] else []
   | [] => [])

/-- The first prefix match of CPython's `%d` pattern
`3[01]|[12]\d|0[1-9]|[1-9]`, with the remaining input. -/
def dayMatch : List Char → Option (Nat × List Char)
  | c1 :: c2 :: r =>
    if c1 = '3' ∧ ('0' ≤ c2 ∧ c2 ≤ '1') then some (30 + digitVal c2, r)
    else if ('1' ≤ c1 ∧ c1 ≤ '2') ∧ c2.isDigit then some (10 * digitVal c1 + digitVal c2, r)
    else if c1 = '0' ∧ ('1' ≤ c2 ∧ c2 ≤ '9') then some (digitVal c2, r)
    else if '1' ≤ c1 ∧ c1 ≤ '9' then some (digitVal c1, c2 :: r)
    else none
  | [c1] => if '1' ≤ c1 ∧ c1 ≤ '9' then some (digitVal c1, []) else none
  | [] => none

/-- CPython `time.strptime(s, "%Y%m%d")`: the regex
`(\d\d\d\d)(1[0-2]|0[1-9]|[1-9])(3[01]|[12]\d|0[1-9]|[1-9])` is matched with
backtracking over the month alternatives (the first month alternative whose
day group matches wins, with no further backtracking), the whole input must
be consumed, and the y/m/d triple must form a valid `datetime.date`
(year ≥ 1, day within the month).  `none` models `ValueError`. -/
def strptimeYmd (s : String) : Option (Nat × Nat × Nat) :=
  match s.data with
  | y1 :: y2 :: y3 :: y4 :: rest =>
    if y1.isDigit ∧ y2.isDigit ∧ y3.isDigit ∧ y4.isDigit then
      let y := digitsToNat [y1, y2, y3, y4]
      match (monthAlts rest).findSome?
          (fun p => (dayMatch p.2).map (fun q => (p.1, q.1, q.2))) with
      | some (m, d, rem) =>
        if rem = [] then
          if 1 ≤ y ∧ 1 ≤ d ∧ d ≤ daysInMonth y m then some (y, m, d) else none
        else none
      | none => none
    else none
  | _ => none

/-- Two-digit zero padding, as `strftime`'s `%m`/`%d`. -/
def pad2 (n : Nat) : String := if n < 10 then "0" ++ Nat.repr n else Nat.repr n

/-- `time.strftime("%Y-%m-%d", t)` on a y/m/d triple (glibc prints the year
unpadded; all years produced by `strptimeYmd` here are four digits). -/
def formatYmd (t : Nat × Nat × Nat) : String :=
  Nat.repr t.1 ++ "-" ++ pad2 t.2.1 ++ "-" ++ pad2 t.2.2

/-- Decimal digits of `n`, most significant first. -/
def natDigits (n : Nat) : List Char :=
  if _h : n < 10 then [Nat.digitChar n]
  else natDigits (n / 10) ++ [Nat.digitChar (n % 10)]
termination_by n
decreasing_by exact Nat.div_lt_self (by omega) (by omega)

/-- The fixed-width (zero-padded) text representation of `n` in a `w`-wide
numeric field of this format. -/
def fixedWidthRepr (w n : Nat) : String :=
  ⟨List.replicate (w - (natDigits n).length) '0' ++ natDigits n⟩

/-- `Nat.repr` zero-padded to width `w`. -/
def natReprPad (w n : Nat) : String :=
  ⟨List.replicate (w - (Nat.repr n).length) '0' ++ (Nat.repr n).data⟩

/-- Python `"%f" % q`: six decimal places.  Exact for the two-decimal amounts
this format produces (ties at the seventh decimal, where `%f` rounds
half-even, cannot occur for such values). -/
def formatFloat6 (q : ℚ) : String :=
  let sgn := if q < 0 then "-" else ""
  let m : Nat := (Rat.floor (|q| * 1000000 + 1/2)).toNat
  sgn ++ Nat.repr (m / 1000000) ++ "." ++ natReprPad 6 (m % 1000000)

/-- The `self.reject_reason` table built in the constructor: reject code →
reason text (the `_()` translation wrapper is the identity here). -/
def rejectReason (code : String) : Option String :=
  if code = "01" then some "Insufficient cover funds."
  else if code = "02" then some "Debtor protestation."
  else if code = "03" then some "Debtor’s account number and address do not match."
  else if code = "04" then some "Postal account closed."
  else if code = "05" then some "Postal account blocked/frozen."
  else if code = "06" then some "Postal account holder deceased."
  else if code = "07" then some "Postal account number non-existent."
  else none

/-- The message `_("Amount to debit was %s %f") % (currency, amount)`. -/
def debitMsg (currency : String) (amount : ℚ) : String :=
  "Amount to debit was " ++ currency ++ " " ++ formatFloat6 amount

/-- The `084` branch of `_parse_transactions`: given the line, the currency
slice and the already-divided amount, produce the (amount, note) pair.  An
unknown reject code is a `KeyError` carrying the failed key. -/
def rejectBranch (line currency : String) (amount0 : ℚ) : Except PyErr (ℚ × String) :=
  if pySlice line 0 3 = "084" then
    match rejectReason (pySlice line 128 130) with
    | none => Except.error (PyErr.keyError (pySlice line 128 130))
    | some reason =>
      if pySlice line 128 130 = "02" then Except.ok (-amount0, reason)
      else Except.ok (0, reason ++ "\n" ++ debitMsg currency amount0)
  else Except.ok (amount0, "")

/-- One decoded transaction dict. -/
structure Transaction where
  name : String
  ref : String
  unique_import_id : String
  amount : ℚ
  date : String
  note : String
  deriving DecidableEq

/-- The per-line body of `_parse_transactions`, in source evaluation order:
slice reference and currency, convert the amount (`ValueError` on failure),
parse the date (`ValueError` on failure), run the `084` branch, then read
`line[5]` (`IndexError` if the line is shorter) and prepend the test marker
when it is `'3'`. -/
def decodeLine (line : String) : Except PyErr Transaction :=
  match decodeAmount (pySlice line 45 57) with
  | none => Except.error PyErr.valueError
  | some amount0 =>
    match strptimeYmd (pySlice line 108 116) with
    | none => Except.error PyErr.valueError
    | some ymd =>
      match rejectBranch line (pySlice line 42 45) amount0 with
      | Except.error e => Except.error e
      | Except.ok an =>
        match charAt line 5 with
        | none => Except.error PyErr.indexError
        | some c =>
          Except.ok
            { name := "/",
              ref := pySlice line 15 42,
              unique_import_id := pySlice line 15 42,
              amount := an.1,
              date := formatYmd ymd,
              note := if c = '3' then "-- Test transaction --" ++ "\n" ++ an.2 else an.2 }

/-- `_parse_transactions`: one pass over all lines, skipping every line whose
record type is `097`, collecting transactions in file order; the first
decoding error aborts the pass. -/
def parseTransactions : List String → Except PyErr (List Transaction)
  | [] => Except.ok []
  | l :: rest =>
    if pySlice l 0 3 = "097" then parseTransactions rest
    else
      match decodeLine l with
      | Except.error e => Except.error e
      | Except.ok t =>
        match parseTransactions rest with
        | Except.error e => Except.error e
        | Except.ok ts => Except.ok (t :: ts)

/-- Spec-side formulation ("one transaction per line, in order"): decode every
line of the given list, in order, failing on the first error.  Compared with
`parseTransactions` composed with the trailer filter. -/
def specDecodeAll : List String → Except PyErr (List Transaction)
  | [] => Except.ok []
  | l :: rest =>
    match decodeLine l with
    | Except.error e => Except.error e
    | Except.ok t =>
      match specDecodeAll rest with
      | Except.error e => Except.error e
      | Except.ok ts => Except.ok (t :: ts)

/-- One bank statement dict. -/
structure Statement where
  balance_start : ℚ
  balance_end_real : ℚ
  date : String
  attachments : List String
  transactions : List Transaction
  deriving DecidableEq

/-- The parser instance state: `self.lines`, `self.statements`,
`self.currency_code`. -/
structure G11Parser where
  lines : List String
  statements : List Statement
  currency_code : Option String
  deriving DecidableEq

/-- Modelled from the spec: the base-class constructor (`BaseSwissParser`,
not under src/) gives a fresh instance an empty statement list and no
currency code; the `G11Parser` constructor itself splits `data_file` into
`self.lines`. -/
def mkParser (data_file : String) : G11Parser :=
  { lines := pySplitlines data_file, statements := [], currency_code := none }

/-- `file_is_known`: `self.lines[-1][0:3] == '097'`.  `lines[-1]` raises
`IndexError` on an empty line list; the slice and comparison never raise. -/
def fileIsKnown (p : G11Parser) : Except PyErr Bool :=
  match p.lines.getLast? with
  | none => Except.error PyErr.indexError
  | some l => Except.ok (decide (pySlice l 0 3 = "097"))

/-- `_parse_currency_code`: `self.lines[-1][128:131]`. -/
def parseCurrencyCode (p : G11Parser) : Except PyErr String :=
  match p.lines.getLast? with
  | none => Except.error PyErr.indexError
  | some t => Except.ok (pySlice t 128 131)

/-- `_parse_statement_balance_end`:
`float(total_line[45:57]) / 100 - float(total_line[101:113]) / 100`. -/
def parseStatementBalanceEnd (p : G11Parser) : Except PyErr ℚ :=
  match p.lines.getLast? with
  | none => Except.error PyErr.indexError
  | some t =>
    match pyfloat (pySlice t 45 57), pyfloat (pySlice t 101 113) with
    | some a, some b => Except.ok (a / 100 - b / 100)
    | _, _ => Except.error PyErr.valueError

/-- `_parse_statement_date`: the current date at parse time, passed in as a
parameter of the model. -/
def parseStatementDate (today : String) : String := today

/-- `validate`: re-read the trailer, convert the three counters with `int`
(`ValueError` on failure), then compare `len(self.statements[0]['transactions'])`
(`IndexError` if no statement) with their sum.  A mismatch yields `ok false`,
never an error. -/
def validateE (p : G11Parser) : Except PyErr Bool :=
  match p.lines.getLast? with
  | none => Except.error PyErr.indexError
  | some t =>
    match pyint (pySlice t 57 69), pyint (pySlice t 89 101), pyint (pySlice t 113 125) with
    | some c1, some c2, some c3 =>
      match p.statements.head? with
      | none => Except.error PyErr.indexError
      | some st => Except.ok (decide ((st.transactions.length : Int) = c1 + c2 + c3))
    | _, _, _ => Except.error PyErr.valueError

/-- `_parse`, in source order: assign `self.currency_code` from the trailer,
build the statement dict (opening balance `0.0`, closing balance from the
trailer, today's date, empty attachments, decoded transactions), append it to
`self.statements`, then return `validate()`'s result.  An error anywhere
propagates immediately; mutations already performed remain. -/
def G11parse (p : G11Parser) (today : String) : G11Parser × Except PyErr Bool :=
  match parseCurrencyCode p with
  | Except.error e => (p, Except.error e)
  | Except.ok cc =>
    let p1 : G11Parser := { p with currency_code := some cc }
    match parseStatementBalanceEnd p1 with
    | Except.error e => (p1, Except.error e)
    | Except.ok bal =>
      match parseTransactions p1.lines with
      | Except.error e => (p1, Except.error e)
      | Except.ok txs =>
        let st : Statement :=
          { balance_start := 0,
            balance_end_real := bal,
            date := parseStatementDate today,
            attachments := [],
            transactions := txs }
        let p2 : G11Parser := { p1 with statements := p1.statements ++ [st] }
        (p2, validateE p2)

/-- A line the transaction loop passes without error: either a trailer-typed
line (skipped) or one that decodes to a transaction. -/
def okLine (l : String) : Prop :=
  pySlice l 0 3 = "097" ∨ ∃ t, decodeLine l = Except.ok t

/-- A string of `n` zero characters (fixed-width filler). -/
def zeros (n : Nat) : String := ⟨List.replicate n '0'⟩

/-- A 130-character transaction record: record type at [0,3), test flag at
[5,6), reference at [15,42), currency at [42,45), amount at [45,57), date at
[108,116), reject code at [128,130); filler elsewhere. -/
def mkTxLine (rt flag ref cur amt date rc : String) : String :=
  rt ++ "00" ++ flag ++ zeros 9 ++ ref ++ cur ++ amt ++ zeros 51 ++ date ++ zeros 12 ++ rc

/-- A 131-character trailer record: `097` at [0,3), credit total at [45,57),
count-1 at [57,69), count-2 at [89,101), debit total at [101,113), count-3 at
[113,125), currency at [128,131); filler elsewhere. -/
def mkTrailerLine (credit c1 c2 debit c3 cur : String) : String :=
  "097" ++ "00" ++ "0" ++ zeros 9 ++ zeros 27 ++ zeros 3 ++ credit ++ c1 ++
    zeros 20 ++ c2 ++ debit ++ c3 ++ zeros 3 ++ cur

/-- A 27-character reference field. -/
def refZ : String := zeros 27

/-- A normal transaction line: 1500.00 CHF on 2013-06-26. -/
def lineNorm : String := mkTxLine "001" "0" refZ "CHF" "000000150000" "20130626" "00"

/-- A failed-debit record with reject code `02`, amount 83.68. -/
def lineR02 : String := mkTxLine "084" "0" refZ "CHF" "000000008368" "20130626" "02"

/-- A failed-debit record with reject code `02` that is also flagged as a
test transaction (offset 5 is `'3'`). -/
def lineR02test : String := mkTxLine "084" "3" refZ "CHF" "000000008368" "20130626" "02"

/-- A failed-debit record with reject code `01`, flagged as a test
transaction. -/
def lineR01test : String := mkTxLine "084" "3" refZ "CHF" "000000008368" "20130626" "01"

/-- A failed-debit record with the unknown reject code `99`. -/
def lineR99 : String := mkTxLine "084" "0" refZ "CHF" "000000008368" "20130626" "99"

/-- A 115-character line: too short for the date field [108,116) — its date
text is the truncated `"2013066"` — and shorter than every later field. -/
def lineShort : String :=
  "001" ++ "00" ++ "0" ++ zeros 9 ++ refZ ++ "CHF" ++ "000000150000" ++ zeros 51 ++ "2013066"

/-- A line whose amount field text `"0000000000AB"` is not parseable. -/
def lineBadAmt : String := mkTxLine "001" "0" refZ "CHF" "0000000000AB" "20130626" "00"

/-- A line whose date field text `"20131301"` (month 13) is not parseable. -/
def lineBadDate : String := mkTxLine "001" "0" refZ "CHF" "000000150000" "20131301" "00"

/-- Trailer: credit total 150000 cents, counters 1/0/0, debit total 0. -/
def trailer100 : String :=
  mkTrailerLine "000000150000" "000000000001" "000000000000" "000000000000" "000000000000" "CHF"

/-- Trailer: credit total 45600 cents, debit total 1200 cents, counters
1/0/0. -/
def trailer444 : String :=
  mkTrailerLine "000000045600" "000000000001" "000000000000" "000000001200" "000000000000" "CHF"

/-- Trailer whose three counters are 5, 3 and 2. -/
def trailer532 : String :=
  mkTrailerLine "000000045600" "000000000005" "000000000003" "000000001200" "000000000002" "CHF"

/-- Parser on a two-line file: one normal transaction, trailer with credit
45600 and debit 1200. -/
def pC3 : G11Parser := mkParser (lineNorm ++ "\n" ++ trailer444)

/-- Parser on a file whose transaction line carries the unknown reject code
`99`. -/
def pC5 : G11Parser := mkParser (lineR99 ++ "\n" ++ trailer444)

/-- Parser on a file whose transaction line has an unparseable amount. -/
def pC9w : G11Parser := mkParser (lineBadAmt ++ "\n" ++ trailer444)

/-- Parser on a file whose transaction line is only 115 characters long. -/
def pC9c : G11Parser := mkParser (lineShort ++ "\n" ++ trailer444)

/-- Parser on a file whose transaction line has an invalid date. -/
def pC10 : G11Parser := mkParser (lineBadDate ++ "\n" ++ trailer444)

/-- A placeholder transaction used to populate synthetic statements. -/
def txDummy : Transaction :=
  { name := "/", ref := "", unique_import_id := "", amount := 0, date := "", note := "" }

/-- A statement holding `n` placeholder transactions. -/
def stWith (n : Nat) : Statement :=
  { balance_start := 0, balance_end_real := 0, date := "", attachments := [],
    transactions := List.replicate n txDummy }

/-- Parser state after collecting 10 transactions, trailer counters 5/3/2. -/
def pC1a : G11Parser := { lines := [trailer532], statements := [stWith 10], currency_code := none }

/-- Parser state after collecting 9 transactions, trailer counters 5/3/2. -/
def pC1b : G11Parser := { lines := [trailer532], statements := [stWith 9], currency_code := none }

/-- The transaction decoded from `lineNorm`. -/
def txNorm : Transaction :=
  { name := "/", ref := refZ, unique_import_id := refZ, amount := 1500,
    date := "2013-06-26", note := "" }

/-- The transaction decoded from `lineR02test`: the `02` reason text does not
survive unmodified, the test marker is prepended. -/
def txR02test : Transaction :=
  { name := "/", ref := refZ, unique_import_id := refZ, amount := -(2092/25 : ℚ),
    date := "2013-06-26", note := "-- Test transaction --\nDebtor protestation." }

/-- The transaction decoded from `lineR01test`. -/
def txR01test : Transaction :=
  { name := "/", ref := refZ, unique_import_id := refZ, amount := 0,
    date := "2013-06-26",
    note := "-- Test transaction --\nInsufficient cover funds.\nAmount to debit was CHF 83.680000" }

/-- The transaction decoded from `lineR02`. -/
def txR02 : Transaction :=
  { name := "/", ref := refZ, unique_import_id := refZ, amount := -(2092/25 : ℚ),
    date := "2013-06-26", note := "Debtor protestation." }

/-- The parser state after a fully successful pass of `_parse`: currency code
assigned from trailer `t` and one statement appended. -/
def afterParse (p : G11Parser) (t d : String) (bal : ℚ) (txs : List Transaction) : G11Parser :=
  { p with
      currency_code := some (pySlice t 128 131)
      statements := p.statements ++
        [{ balance_start := 0, balance_end_real := bal, date := d,
           attachments := [], transactions := txs }] }

/-- Trailer whose credit-total text at [45,57) is not numeric. -/
def trailerBadTotal : String :=
  mkTrailerLine "0000000000XY" "000000000001" "000000000000" "000000001200" "000000000000" "CHF"

/-- Trailer whose count-1 text at [57,69) is not numeric. -/
def trailerBadCount : String :=
  mkTrailerLine "000000045600" "0000000000XY" "000000000000" "000000001200" "000000000000" "CHF"

/-- Parser on a file whose trailer has an unparseable credit total. -/
def pC9b : G11Parser := mkParser (lineNorm ++ "\n" ++ trailerBadTotal)

/-- Parser on a file whose trailer has an unparseable counter. -/
def pC9t : G11Parser := mkParser (lineNorm ++ "\n" ++ trailerBadCount)

/-- The statement that `_parse` appends for `pC9t` just before `validate`
raises on the unparseable counter. -/
def stC9t : Statement :=
  { balance_start := 0,
    balance_end_real := ((45600 : Nat) : ℚ) / 100 - ((1200 : Nat) : ℚ) / 100,
    date := "2026-10-12", attachments := [], transactions := [txNorm] }

/-- `decodeLine` evaluated when every sub-step is known. -/
theorem decodeLine_eq (l : String) (amt : ℚ) (ymd : Nat × Nat × Nat) (an : ℚ × String) (c : Char)
    (hamt : decodeAmount (pySlice l 45 57) = some amt)
    (hymd : strptimeYmd (pySlice l 108 116) = some ymd)
    (hrb : rejectBranch l (pySlice l 42 45) amt = Except.ok an)
    (hc : charAt l 5 = some c) :
    decodeLine l = Except.ok
      { name := "/", ref := pySlice l 15 42, unique_import_id := pySlice l 15 42,
        amount := an.1, date := formatYmd ymd,
        note := if c = '3' then "-- Test transaction --" ++ "\n" ++ an.2 else an.2 } := by
  simp [decodeLine, hamt, hymd, hrb, hc]

/-- The `02` case of the `084` branch: negated amount, bare reason text. -/
theorem rejectBranch_02 (l cur : String) (amt : ℚ)
    (h084 : pySlice l 0 3 = "084") (h02 : pySlice l 128 130 = "02") :
    rejectBranch l cur amt = Except.ok (-amt, "Debtor protestation.") := by
  simp [rejectBranch, h084, h02, rejectReason]

/-- The non-`02` case of the `084` branch: zero amount, reason text plus the
original-amount message. -/
theorem rejectBranch_other (l cur : String) (amt : ℚ) (reason : String)
    (h084 : pySlice l 0 3 = "084")
    (hr : rejectReason (pySlice l 128 130) = some reason)
    (hne : pySlice l 128 130 ≠ "02") :
    rejectBranch l cur amt = Except.ok (0, reason ++ "\n" ++ debitMsg cur amt) := by
  simp [rejectBranch, h084, hr, hne]

/-- If every line before position `i` passes the transaction loop and the
line at `i` is a non-trailer line whose decode fails, the whole loop fails
with that error. -/
theorem parseTransactions_error_mid (pre : List String) (l : String) (post : List String)
    (e : PyErr) (hpre : ∀ x ∈ pre, okLine x) (hl : pySlice l 0 3 ≠ "097")
    (he : decodeLine l = Except.error e) :
    parseTransactions (pre ++ l :: post) = Except.error e := by
  induction pre with
  | nil => simp [parseTransactions, hl, he]
  | cons a pre ih =>
    have ha : okLine a := hpre a (by simp)
    have hrest : parseTransactions (pre ++ l :: post) = Except.error e :=
      ih (fun x hx => hpre x (by simp [hx]))
    by_cases h097 : pySlice a 0 3 = "097"
    · simp [parseTransactions, h097, hrest]
    · rcases ha with h | ⟨t, ht⟩
      · exact absurd h h097
      · simp [parseTransactions, h097, ht, hrest]

/-- `_parse` when the trailer is readable but transaction decoding fails:
the error propagates, the currency code is already assigned, the statement
list is untouched. -/
theorem G11parse_err (p : G11Parser) (d t : String) (a b : ℚ) (e : PyErr)
    (ht : p.lines.getLast? = some t)
    (hfa : pyfloat (pySlice t 45 57) = some a)
    (hfb : pyfloat (pySlice t 101 113) = some b)
    (he : parseTransactions p.lines = Except.error e) :
    G11parse p d = ({ p with currency_code := some (pySlice t 128 131) }, Except.error e) := by
  simp [G11parse, parseCurrencyCode, parseStatementBalanceEnd, ht, hfa, hfb, he]

/-- `_parse` when the trailer is readable and every transaction decodes:
the statement is appended and `validate`'s verdict is returned. -/
theorem G11parse_ok (p : G11Parser) (d t : String) (a b : ℚ) (txs : List Transaction)
    (ht : p.lines.getLast? = some t)
    (hfa : pyfloat (pySlice t 45 57) = some a)
    (hfb : pyfloat (pySlice t 101 113) = some b)
    (htx : parseTransactions p.lines = Except.ok txs) :
    G11parse p d =
      (afterParse p t d (a / 100 - b / 100) txs,
       validateE (afterParse p t d (a / 100 - b / 100) txs)) := by
  simp [G11parse, parseCurrencyCode, parseStatementBalanceEnd, parseStatementDate,
    afterParse, ht, hfa, hfb, htx]

/-- Claim C1: for every parser state whose trailer (last line) carries
integer counter fields at offsets [57,69), [89,101) and [113,125) and which
holds a parsed statement, `validate` returns a boolean — true exactly when
the number of collected transactions equals the sum of the three counters —
and never raises on a mismatch (a mismatch yields `ok false`, not an
error). -/
theorem claim_C1 (p : G11Parser) (t : String) (c1 c2 c3 : Int) (st : Statement)
    (ht : p.lines.getLast? = some t)
    (h1 : pyint (pySlice t 57 69) = some c1)
    (h2 : pyint (pySlice t 89 101) = some c2)
    (h3 : pyint (pySlice t 113 125) = some c3)
    (hst : p.statements.head? = some st) :
    validateE p = Except.ok (decide ((st.transactions.length : Int) = c1 + c2 + c3)) ∧
    (validateE p = Except.ok true ↔ (st.transactions.length : Int) = c1 + c2 + c3) := by
  have h : validateE p =
      Except.ok (decide ((st.transactions.length : Int) = c1 + c2 + c3)) := by
    simp [validateE, ht, h1, h2, h3, hst]
  refine ⟨h, ?_⟩
  rw [h]
  simp

/-- Claim C1 witness: with trailer counters 5, 3, 2 and exactly 10 collected
transactions validation returns true; with 9 it returns false. -/
theorem claim_C1_witness :
    pyint (pySlice trailer532 57 69) = some 5 ∧
    pyint (pySlice trailer532 89 101) = some 3 ∧
    pyint (pySlice trailer532 113 125) = some 2 ∧
    validateE pC1a = Except.ok (decide (((stWith 10).transactions.length : Int) = 5 + 3 + 2)) ∧
    decide (((stWith 10).transactions.length : Int) = 5 + 3 + 2) = true ∧
    validateE pC1b = Except.ok (decide (((stWith 9).transactions.length : Int) = 5 + 3 + 2)) ∧
    decide (((stWith 9).transactions.length : Int) = 5 + 3 + 2) = false := by
  refine ⟨by decide, by decide, by decide, ?_, by decide, ?_, by decide⟩
  · exact (claim_C1 pC1a trailer532 5 3 2 (stWith 10) (by decide) (by decide) (by decide)
      (by decide) (by decide)).1
  · exact (claim_C1 pC1b trailer532 5 3 2 (stWith 9) (by decide) (by decide) (by decide)
      (by decide) (by decide)).1

/-- Claim C4, counterexample to the claim as stated: on the empty input file
content `splitlines` yields no lines at all, and `file_is_known` then raises
`IndexError` at `self.lines[-1]` instead of returning false — so "for every
input file content … never raises" fails at this input. -/
theorem claim_C4_counterexample :
    fileIsKnown (mkParser "") = Except.error PyErr.indexError := by decide

/-- Claim C4 (amended: restricted to input contents with at least one line,
i.e. nonempty content): `file_is_known` returns — without raising — true iff
the first 3 characters of the last line equal `097`; on empty content it
raises `IndexError` instead (see the counterexample). -/
theorem claim_C4 (data l : String) (h : (pySplitlines data).getLast? = some l) :
    fileIsKnown (mkParser data) = Except.ok (decide (pySlice l 0 3 = "097")) ∧
    (fileIsKnown (mkParser data) = Except.ok true ↔ pySlice l 0 3 = "097") := by
  have hf : fileIsKnown (mkParser data) = Except.ok (decide (pySlice l 0 3 = "097")) := by
    simp [fileIsKnown, mkParser, h]
  refine ⟨hf, ?_⟩
  rw [hf]
  simp

/-- Claim C4 witness: a two-line file whose last line starts with `097` is
recognized, returning `ok true`. -/
theorem claim_C4_witness :
    (pySplitlines (lineNorm ++ "\n" ++ trailer100)).getLast? = some trailer100 ∧
    fileIsKnown (mkParser (lineNorm ++ "\n" ++ trailer100)) =
      Except.ok (decide (pySlice trailer100 0 3 = "097")) ∧
    decide (pySlice trailer100 0 3 = "097") = true := by
  refine ⟨by decide, ?_, by decide⟩
  exact (claim_C4 (lineNorm ++ "\n" ++ trailer100) trailer100 (by decide)).1

/-- Claim C2, counterexample to the claim as stated: a `084` line with
reject code `02` that is also flagged as a test transaction (offset 5 is
`'3'`) decodes with the negated amount, but its note is NOT the `02` reason
text unmodified — the test marker is prepended — so the universally
quantified note clause fails at this line. -/
theorem claim_C2_counterexample :
    pySlice lineR02test 0 3 = "084" ∧ pySlice lineR02test 128 130 = "02" ∧
    decodeLine lineR02test = Except.ok txR02test ∧
    txR02test.note ≠ "Debtor protestation." := by with_unfolding_all decide

/-- Claim C2 (amended: restricted to lines not flagged as test transactions,
i.e. whose offset-5 character is not `'3'`; on test lines the same note
additionally receives the test-marker prefix — see the counterexample):
for a `084` line with a known reject code that decodes successfully, reject
code `02` gives amount `-(decimal([45,57))/100)` and note equal to the `02`
reason text unmodified; any other known reject code gives amount `0.0` and
note equal to that code's reason text, a line break, and the message stating
the originally intended debit amount and currency. -/
theorem claim_C2 (l : String) (t : Transaction) (amt : ℚ) (c : Char)
    (h084 : pySlice l 0 3 = "084")
    (hamt : decodeAmount (pySlice l 45 57) = some amt)
    (hc : charAt l 5 = some c) (hnc : c ≠ '3')
    (hok : decodeLine l = Except.ok t) :
    (pySlice l 128 130 = "02" →
      t.amount = -amt ∧ t.note = "Debtor protestation.") ∧
    (pySlice l 128 130 ≠ "02" → ∀ reason, rejectReason (pySlice l 128 130) = some reason →
      t.amount = 0 ∧ t.note = reason ++ "\n" ++ debitMsg (pySlice l 42 45) amt) := by
  rcases hymd : strptimeYmd (pySlice l 108 116) with _ | ymd
  · simp [decodeLine, hamt, hymd] at hok
  rcases hrb : rejectBranch l (pySlice l 42 45) amt with e | an
  · simp [decodeLine, hamt, hymd, hrb] at hok
  have hdl := decodeLine_eq l amt ymd an c hamt hymd hrb hc
  rw [hok] at hdl
  have ht := Except.ok.inj hdl
  constructor
  · intro h02
    have h2 := rejectBranch_02 l (pySlice l 42 45) amt h084 h02
    rw [hrb] at h2
    have han := Except.ok.inj h2
    rw [ht, han]
    simp [hnc]
  · intro hne reason hr
    have h2 := rejectBranch_other l (pySlice l 42 45) amt reason h084 hr hne
    rw [hrb] at h2
    have han := Except.ok.inj h2
    rw [ht, han]
    simp [hnc]

/-- Claim C2 witness: the non-test `084` line with reject code `02` and raw
amount 83.68 decodes to amount `-83.68` with note exactly the `02` reason
text. -/
theorem claim_C2_witness :
    pySlice lineR02 0 3 = "084" ∧ pySlice lineR02 128 130 = "02" ∧
    charAt lineR02 5 = some '0' ∧
    decodeLine lineR02 = Except.ok txR02 ∧
    txR02.amount = -(2092/25 : ℚ) ∧ txR02.note = "Debtor protestation." := by
  refine ⟨by with_unfolding_all decide, by with_unfolding_all decide, by with_unfolding_all decide, by with_unfolding_all decide, ?_, ?_⟩
  · exact ((claim_C2 lineR02 txR02 (2092/25) '0' (by with_unfolding_all decide) (by with_unfolding_all decide) (by with_unfolding_all decide)
      (by with_unfolding_all decide) (by with_unfolding_all decide)).1 (by with_unfolding_all decide)).1
  · exact ((claim_C2 lineR02 txR02 (2092/25) '0' (by with_unfolding_all decide) (by with_unfolding_all decide) (by with_unfolding_all decide)
      (by with_unfolding_all decide) (by with_unfolding_all decide)).1 (by with_unfolding_all decide)).2

/-- Claim C7: for every line that decodes to a transaction and whose
character at offset 5 is `'3'`, the note is the test-transaction marker
prepended to the note produced by the record-type branch (joined by a line
break), whatever that branch produced — and the amount from that branch is
kept. -/
theorem claim_C7 (l : String) (t : Transaction) (amt : ℚ) (an : ℚ × String)
    (hamt : decodeAmount (pySlice l 45 57) = some amt)
    (hrb : rejectBranch l (pySlice l 42 45) amt = Except.ok an)
    (hc : charAt l 5 = some '3')
    (hok : decodeLine l = Except.ok t) :
    t.note = "-- Test transaction --" ++ "\n" ++ an.2 ∧ t.amount = an.1 := by
  rcases hymd : strptimeYmd (pySlice l 108 116) with _ | ymd
  · simp [decodeLine, hamt, hymd] at hok
  have hdl := decodeLine_eq l amt ymd an '3' hamt hymd hrb hc
  rw [hok] at hdl
  have ht := Except.ok.inj hdl
  rw [ht]
  simp

/-- Claim C7 witness: a failed `084` test line (reject code `01`) keeps its
rejection note after the test marker. -/
theorem claim_C7_witness :
    charAt lineR01test 5 = some '3' ∧
    pySlice lineR01test 0 3 = "084" ∧
    decodeLine lineR01test = Except.ok txR01test ∧
    txR01test.note = "-- Test transaction --" ++ "\n" ++
      ("Insufficient cover funds." ++ "\n" ++ debitMsg "CHF" (2092/25)) := by
  refine ⟨by with_unfolding_all decide, by with_unfolding_all decide, by with_unfolding_all decide, ?_⟩
  exact (claim_C7 lineR01test txR01test (2092/25)
    (0, "Insufficient cover funds." ++ "\n" ++ debitMsg "CHF" (2092/25))
    (by with_unfolding_all decide) (by with_unfolding_all decide) (by with_unfolding_all decide) (by with_unfolding_all decide)).1

/-- Claim C6: `_parse_transactions` yields exactly one transaction per line
whose record type is not `097`, in file line order (every `097`-prefixed line
anywhere in the file is skipped by the per-line record-type check), and every
produced transaction has name `/` and both `ref` and `unique_import_id` equal
to the reference field at [15,42). -/
theorem claim_C6 (lines : List String) :
    parseTransactions lines =
      specDecodeAll (lines.filter (fun l => decide (pySlice l 0 3 ≠ "097"))) ∧
    ∀ l t, decodeLine l = Except.ok t →
      t.name = "/" ∧ t.ref = pySlice l 15 42 ∧ t.unique_import_id = pySlice l 15 42 := by
  constructor
  · induction lines with
    | nil => rfl
    | cons a rest ih =>
      by_cases h : pySlice a 0 3 = "097"
      · simp [parseTransactions, List.filter_cons, h, ih]
      · cases hd : decodeLine a with
        | error e => simp [parseTransactions, specDecodeAll, List.filter_cons, h, hd]
        | ok t => simp [parseTransactions, specDecodeAll, List.filter_cons, h, hd, ih]
  · intro l t h
    rcases ha : decodeAmount (pySlice l 45 57) with _ | amt
    · simp [decodeLine, ha] at h
    rcases hy : strptimeYmd (pySlice l 108 116) with _ | ymd
    · simp [decodeLine, ha, hy] at h
    rcases hr : rejectBranch l (pySlice l 42 45) amt with e | an
    · simp [decodeLine, ha, hy, hr] at h
    rcases hc : charAt l 5 with _ | c
    · simp [decodeLine, ha, hy, hr, hc] at h
    have hdl := decodeLine_eq l amt ymd an c ha hy hr hc
    rw [h] at hdl
    have ht := Except.ok.inj hdl
    rw [ht]
    exact ⟨rfl, rfl, rfl⟩

/-- Claim C6 witness: on a two-line file the trailer is skipped, the single
transaction line yields one transaction with name `/` and `ref` and
`unique_import_id` equal to its [15,42) field. -/
theorem claim_C6_witness :
    parseTransactions [lineNorm, trailer100] =
      specDecodeAll ([lineNorm, trailer100].filter (fun l => decide (pySlice l 0 3 ≠ "097"))) ∧
    decodeLine lineNorm = Except.ok txNorm ∧
    txNorm.name = "/" ∧ txNorm.ref = pySlice lineNorm 15 42 ∧
    txNorm.unique_import_id = pySlice lineNorm 15 42 := by
  refine ⟨(claim_C6 [lineNorm, trailer100]).1, by with_unfolding_all decide, ?_, ?_, ?_⟩
  · exact ((claim_C6 [lineNorm, trailer100]).2 lineNorm txNorm
      (by with_unfolding_all decide)).1
  · exact ((claim_C6 [lineNorm, trailer100]).2 lineNorm txNorm
      (by with_unfolding_all decide)).2.1
  · exact ((claim_C6 [lineNorm, trailer100]).2 lineNorm txNorm
      (by with_unfolding_all decide)).2.2

/-- Claim C3: for every parser state whose trailer carries parseable amount
fields, the closing balance is `decimal(trailer[45:57])/100 -
decimal(trailer[101:113])/100`, and whenever `_parse` gets past transaction
decoding, the appended statement's `balance_end_real` is exactly that
value. -/
theorem claim_C3 (p : G11Parser) (t : String) (a b : ℚ)
    (ht : p.lines.getLast? = some t)
    (hfa : pyfloat (pySlice t 45 57) = some a)
    (hfb : pyfloat (pySlice t 101 113) = some b) :
    parseStatementBalanceEnd p = Except.ok (a / 100 - b / 100) ∧
    ∀ d txs, parseTransactions p.lines = Except.ok txs →
      ((G11parse p d).1.statements.getLast?).map Statement.balance_end_real =
        some (a / 100 - b / 100) := by
  constructor
  · simp [parseStatementBalanceEnd, ht, hfa, hfb]
  · intro d txs htx
    rw [G11parse_ok p d t a b txs ht hfa hfb htx]
    simp [afterParse]

/-- Folding one more digit multiplies the accumulated value by ten. -/
theorem foldl_digit_shift (cs : List Char) : ∀ a : Nat,
    cs.foldl (fun a c => 10 * a + digitVal c) a = a * 10 ^ cs.length + digitsToNat cs := by
  induction cs with
  | nil => intro a; simp [digitsToNat]
  | cons c cs ih =>
    intro a
    have h2 : digitsToNat (c :: cs) = digitVal c * 10 ^ cs.length + digitsToNat cs := by
      show List.foldl (fun a c => 10 * a + digitVal c) (10 * 0 + digitVal c) cs = _
      rw [ih (10 * 0 + digitVal c)]
      ring
    simp only [List.foldl_cons, List.length_cons]
    rw [ih (10 * a + digitVal c), h2]
    ring

/-- Appending a digit character shifts the value left by one decimal place. -/
theorem digitsToNat_concat (cs : List Char) (c : Char) :
    digitsToNat (cs ++ [c]) = 10 * digitsToNat cs + digitVal c := by
  simp [digitsToNat, List.foldl_append]

/-- Leading zero characters do not change the value of a digit string. -/
theorem digitsToNat_replicate_zero (k : Nat) (cs : List Char) :
    digitsToNat (List.replicate k '0' ++ cs) = digitsToNat cs := by
  induction k with
  | zero => simp
  | succ k ih =>
    rw [List.replicate_succ, List.cons_append]
    have h0 : (10 : Nat) * 0 + digitVal '0' = 0 := by decide
    simp only [digitsToNat, List.foldl_cons]
    rw [h0]
    exact ih

/-- `Nat.digitChar` inverts `digitVal` on single digits. -/
theorem digitVal_digitChar (d : Nat) (h : d < 10) : digitVal (Nat.digitChar d) = d := by
  interval_cases d <;> decide

/-- `Nat.digitChar` produces digit characters on single digits. -/
theorem digitChar_isDigit (d : Nat) (h : d < 10) : (Nat.digitChar d).isDigit = true := by
  interval_cases d <;> decide

/-- `natDigits` produces a nonempty all-digit string whose value is `n`. -/
theorem natDigits_spec (n : Nat) :
    digitsToNat (natDigits n) = n ∧ (natDigits n).all Char.isDigit = true ∧ natDigits n ≠ [] := by
  induction n using Nat.strong_induction_on with
  | _ n ih =>
    rw [natDigits]
    split
    · rename_i h
      refine ⟨?_, ?_, by simp⟩
      · simp [digitsToNat, digitVal_digitChar n h]
      · simp [digitChar_isDigit n h]
    · rename_i h
      have hlt : n / 10 < n := Nat.div_lt_self (by omega) (by omega)
      obtain ⟨ih1, ih2, _⟩ := ih (n / 10) hlt
      have hm : n % 10 < 10 := Nat.mod_lt n (by omega)
      refine ⟨?_, ?_, by simp⟩
      · rw [digitsToNat_concat, ih1, digitVal_digitChar (n % 10) hm]
        omega
      · simp [List.all_append, ih2, digitChar_isDigit (n % 10) hm]

/-- `splitDot` is the identity (no fractional part) on all-digit input. -/
theorem splitDot_digits (cs : List Char) (h : cs.all Char.isDigit = true) :
    splitDot cs = (cs, none) := by
  induction cs with
  | nil => rfl
  | cons c cs ih =>
    rw [List.all_cons, Bool.and_eq_true] at h
    have hne : c ≠ '.' := by
      intro hp
      rw [hp] at h
      exact absurd h.1 (by decide)
    simp [splitDot, hne, ih h.2]

/-- `float()` on a nonempty all-digit string yields its decimal value. -/
theorem pyfloat_digits (cs : List Char) (hne : cs ≠ []) (hd : cs.all Char.isDigit = true) :
    pyfloat ⟨cs⟩ = some (digitsToNat cs : ℚ) := by
  cases cs with
  | nil => exact absurd rfl hne
  | cons c r =>
    rw [List.all_cons, Bool.and_eq_true] at hd
    have h1 : c ≠ '+' := by
      intro hp
      rw [hp] at hd
      exact absurd hd.1 (by decide)
    have h2 : c ≠ '-' := by
      intro hp
      rw [hp] at hd
      exact absurd hd.1 (by decide)
    have hsd : splitDot (c :: r) = (c :: r, none) := by
      refine splitDot_digits (c :: r) ?_
      rw [List.all_cons, Bool.and_eq_true]
      exact hd
    have hall : (c :: r).all Char.isDigit = true := by
      rw [List.all_cons, Bool.and_eq_true]
      exact hd
    simp [pyfloat, h1, h2, hsd, hall]

/-- `float()` on a string known to hold the digits of `n` yields `n`. -/
theorem pyfloat_lit (s : String) (n : Nat) (hne : s.data ≠ [])
    (hd : s.data.all Char.isDigit = true) (hv : digitsToNat s.data = n) :
    pyfloat s = some (n : ℚ) := by
  have h := pyfloat_digits s.data hne hd
  rw [hv] at h
  exact h

/-- Claim C3 witness: trailer credit total 45600 cents and debit total 1200
cents give closing balance exactly 444.00. -/
theorem claim_C3_witness :
    pyfloat (pySlice trailer444 45 57) = some ((45600 : Nat) : ℚ) ∧
    pyfloat (pySlice trailer444 101 113) = some ((1200 : Nat) : ℚ) ∧
    parseStatementBalanceEnd pC3 =
      Except.ok (((45600 : Nat) : ℚ) / 100 - ((1200 : Nat) : ℚ) / 100) ∧
    ((45600 : Nat) : ℚ) / 100 - ((1200 : Nat) : ℚ) / 100 = 444 := by
  have hfa : pyfloat (pySlice trailer444 45 57) = some ((45600 : Nat) : ℚ) :=
    pyfloat_lit _ 45600 (by decide) (by decide) (by decide)
  have hfb : pyfloat (pySlice trailer444 101 113) = some ((1200 : Nat) : ℚ) :=
    pyfloat_lit _ 1200 (by decide) (by decide) (by decide)
  refine ⟨hfa, hfb, ?_, by norm_num⟩
  exact (claim_C3 pC3 trailer444 _ _ (by decide) hfa hfb).1

/-- Claim C5: when the transaction pass reaches a `084` line (readable
trailer, all earlier lines pass, and the line's own amount and date fields
convert) whose reject code has no entry in the reject-reason table — i.e. is
not one of `01`..`07` — the parse fails with `KeyError`, a `LookupError`
subclass, carrying the unknown code; the reason is never defaulted, no
transaction is produced and the statements list is left unchanged. -/
theorem claim_C5 (p : G11Parser) (d t l : String) (pre post : List String)
    (a b amt : ℚ) (ymd : Nat × Nat × Nat)
    (ht : p.lines.getLast? = some t)
    (hfa : pyfloat (pySlice t 45 57) = some a)
    (hfb : pyfloat (pySlice t 101 113) = some b)
    (hsplit : p.lines = pre ++ l :: post)
    (hpre : ∀ x ∈ pre, okLine x)
    (h084 : pySlice l 0 3 = "084")
    (hamt : decodeAmount (pySlice l 45 57) = some amt)
    (hymd : strptimeYmd (pySlice l 108 116) = some ymd)
    (hbad : rejectReason (pySlice l 128 130) = none) :
    (G11parse p d).2 = Except.error (PyErr.keyError (pySlice l 128 130)) ∧
    (G11parse p d).1.statements = p.statements := by
  have hrb : rejectBranch l (pySlice l 42 45) amt =
      Except.error (PyErr.keyError (pySlice l 128 130)) := by
    simp [rejectBranch, h084, hbad]
  have hdl : decodeLine l = Except.error (PyErr.keyError (pySlice l 128 130)) := by
    simp [decodeLine, hamt, hymd, hrb]
  have hne : pySlice l 0 3 ≠ "097" := by
    rw [h084]
    decide
  have hpt : parseTransactions p.lines =
      Except.error (PyErr.keyError (pySlice l 128 130)) := by
    rw [hsplit]
    exact parseTransactions_error_mid pre l post _ hpre hne hdl
  rw [G11parse_err p d t a b _ ht hfa hfb hpt]
  exact ⟨rfl, rfl⟩

/-- Claim C5 witness: the unknown reject code `99` aborts the parse with a
`KeyError` carrying `"99"`, leaving the statements list empty. -/
theorem claim_C5_witness :
    pySlice lineR99 0 3 = "084" ∧
    rejectReason (pySlice lineR99 128 130) = none ∧
    (G11parse pC5 "2026-10-12").2 = Except.error (PyErr.keyError (pySlice lineR99 128 130)) ∧
    (G11parse pC5 "2026-10-12").1.statements = pC5.statements := by
  have hfa : pyfloat (pySlice trailer444 45 57) = some ((45600 : Nat) : ℚ) :=
    pyfloat_lit _ 45600 (by decide) (by decide) (by decide)
  have hfb : pyfloat (pySlice trailer444 101 113) = some ((1200 : Nat) : ℚ) :=
    pyfloat_lit _ 1200 (by decide) (by decide) (by decide)
  have hp : pyfloat (pySlice lineR99 45 57) = some ((8368 : Nat) : ℚ) :=
    pyfloat_lit _ 8368 (by decide) (by decide) (by decide)
  have hamt : decodeAmount (pySlice lineR99 45 57) = some (((8368 : Nat) : ℚ) / 100) := by
    simp [decodeAmount, hp]
  have h := claim_C5 pC5 "2026-10-12" trailer444 lineR99 [] [trailer444]
    ((45600 : Nat) : ℚ) ((1200 : Nat) : ℚ) (((8368 : Nat) : ℚ) / 100) (2013, 6, 26)
    (by decide) hfa hfb (by decide) (by simp) (by decide) hamt (by decide) (by decide)
  exact ⟨by decide, by decide, h.1, h.2⟩

/-- Claim C9, counterexample to the claim as stated, in two parts.  (1) A
file containing a 115-character line — too short for the date field
[108,116), hence for a required field's offsets — parses successfully: the
slice is silently truncated to `"2013066"`, which `strptime` still accepts
(as 2013-06-06), so no fault of any kind is raised and a statement is
produced.  (2) A file whose trailer counter text at [57,69) is not parseable
as an integer does fail with `ValueError`, but only inside `validate`, after
the statement has been appended — a partial statement IS committed, contrary
to the claim's no-partial-statement clause. -/
theorem claim_C9_counterexample :
    (lineShort.length = 115 ∧
     (G11parse pC9c "2026-10-12").2 = Except.ok true ∧
     (G11parse pC9c "2026-10-12").1.statements.length = 1) ∧
    (pyint (pySlice trailerBadCount 57 69) = none ∧
     (G11parse pC9t "2026-10-12").2 = Except.error PyErr.valueError ∧
     (G11parse pC9t "2026-10-12").1.statements.length = 1) := by
  refine ⟨⟨by decide, by with_unfolding_all decide, by with_unfolding_all decide⟩,
    ⟨by decide, by with_unfolding_all decide, by with_unfolding_all decide⟩⟩

/-- Claim C9 (amended — two changes, each forced by one half of the
counterexample: a line merely too short for a field's offsets does not by
itself abort the parse, since Python slicing silently truncates and only the
conversion of the truncated text decides; and the no-partial-statement
guarantee does not extend to the trailer counters, whose `int()` conversion
happens inside `validate` after the statement is appended).  Unparseable
required numeric text faults the parse with a `ValueError`-class error in
every case: (a) if the transaction pass reaches a non-trailer line whose
amount text at [45,57) is not parseable, `_parse` fails with `ValueError`
and the statements list is unchanged; (b) if the trailer credit [45,57) or
debit [101,113) total text is not parseable, `_parse` fails with
`ValueError` before any statement is appended; (c) if transaction decoding
succeeds but a trailer counter text at [57,69), [89,101) or [113,125) is not
parseable as an integer, `_parse` fails with `ValueError`, yet the decoded
statement has already been appended — a partial statement is committed. -/
theorem claim_C9 :
    (∀ (p : G11Parser) (d t l : String) (pre post : List String) (a b : ℚ),
      p.lines.getLast? = some t →
      pyfloat (pySlice t 45 57) = some a →
      pyfloat (pySlice t 101 113) = some b →
      p.lines = pre ++ l :: post →
      (∀ x ∈ pre, okLine x) →
      pySlice l 0 3 ≠ "097" →
      pyfloat (pySlice l 45 57) = none →
      (G11parse p d).2 = Except.error PyErr.valueError ∧
      (G11parse p d).1.statements = p.statements) ∧
    (∀ (p : G11Parser) (d t : String),
      p.lines.getLast? = some t →
      (pyfloat (pySlice t 45 57) = none ∨ pyfloat (pySlice t 101 113) = none) →
      (G11parse p d).2 = Except.error PyErr.valueError ∧
      (G11parse p d).1.statements = p.statements) ∧
    (∀ (p : G11Parser) (d t : String) (a b : ℚ) (txs : List Transaction),
      p.lines.getLast? = some t →
      pyfloat (pySlice t 45 57) = some a →
      pyfloat (pySlice t 101 113) = some b →
      parseTransactions p.lines = Except.ok txs →
      (pyint (pySlice t 57 69) = none ∨ pyint (pySlice t 89 101) = none ∨
        pyint (pySlice t 113 125) = none) →
      (G11parse p d).2 = Except.error PyErr.valueError ∧
      (G11parse p d).1.statements = p.statements ++
        [{ balance_start := 0, balance_end_real := a / 100 - b / 100, date := d,
           attachments := [], transactions := txs }]) := by
  refine ⟨?_, ?_, ?_⟩
  · intro p d t l pre post a b ht hfa hfb hsplit hpre hnt hbadamt
    have hdl : decodeLine l = Except.error PyErr.valueError := by
      simp [decodeLine, decodeAmount, hbadamt]
    have hpt : parseTransactions p.lines = Except.error PyErr.valueError := by
      rw [hsplit]
      exact parseTransactions_error_mid pre l post _ hpre hnt hdl
    rw [G11parse_err p d t a b _ ht hfa hfb hpt]
    exact ⟨rfl, rfl⟩
  · intro p d t ht hbad
    have hbe : parseStatementBalanceEnd p = Except.error PyErr.valueError := by
      rcases hbad with h | h
      · simp [parseStatementBalanceEnd, ht, h]
      · rcases hx : pyfloat (pySlice t 45 57) with _ | a
        · simp [parseStatementBalanceEnd, ht, hx]
        · simp [parseStatementBalanceEnd, ht, hx, h]
    have hbe2 : parseStatementBalanceEnd
        { p with currency_code := some (pySlice t 128 131) } =
        Except.error PyErr.valueError := hbe
    have hG : G11parse p d =
        ({ p with currency_code := some (pySlice t 128 131) },
         Except.error PyErr.valueError) := by
      simp [G11parse, parseCurrencyCode, ht, hbe2]
    rw [hG]
    exact ⟨rfl, rfl⟩
  · intro p d t a b txs ht hfa hfb htx hbadc
    rw [G11parse_ok p d t a b txs ht hfa hfb htx]
    refine ⟨?_, by simp [afterParse]⟩
    show validateE (afterParse p t d (a / 100 - b / 100) txs) = Except.error PyErr.valueError
    rcases hbadc with h | h | h
    · simp [validateE, afterParse, ht, h]
    · rcases h1 : pyint (pySlice t 57 69) with _ | c1
      · simp [validateE, afterParse, ht, h1]
      · simp [validateE, afterParse, ht, h1, h]
    · rcases h1 : pyint (pySlice t 57 69) with _ | c1
      · simp [validateE, afterParse, ht, h1]
      · rcases h2 : pyint (pySlice t 89 101) with _ | c2
        · simp [validateE, afterParse, ht, h1, h2]
        · simp [validateE, afterParse, ht, h1, h2, h]

/-- Claim C9 witness, exercising all three amended cases: an unparseable
transaction amount aborts with `ValueError` leaving statements unchanged; an
unparseable trailer credit total aborts before any statement is appended;
an unparseable trailer counter aborts inside `validate` with the statement
already appended. -/
theorem claim_C9_witness :
    pyfloat (pySlice lineBadAmt 45 57) = none ∧
    ((G11parse pC9w "2026-10-12").2 = Except.error PyErr.valueError ∧
     (G11parse pC9w "2026-10-12").1.statements = pC9w.statements) ∧
    pyfloat (pySlice trailerBadTotal 45 57) = none ∧
    ((G11parse pC9b "2026-10-12").2 = Except.error PyErr.valueError ∧
     (G11parse pC9b "2026-10-12").1.statements = pC9b.statements) ∧
    pyint (pySlice trailerBadCount 57 69) = none ∧
    ((G11parse pC9t "2026-10-12").2 = Except.error PyErr.valueError ∧
     (G11parse pC9t "2026-10-12").1.statements = pC9t.statements ++ [stC9t]) := by
  have hfa : pyfloat (pySlice trailer444 45 57) = some ((45600 : Nat) : ℚ) :=
    pyfloat_lit _ 45600 (by decide) (by decide) (by decide)
  have hfb : pyfloat (pySlice trailer444 101 113) = some ((1200 : Nat) : ℚ) :=
    pyfloat_lit _ 1200 (by decide) (by decide) (by decide)
  have hfa2 : pyfloat (pySlice trailerBadCount 45 57) = some ((45600 : Nat) : ℚ) :=
    pyfloat_lit _ 45600 (by decide) (by decide) (by decide)
  have hfb2 : pyfloat (pySlice trailerBadCount 101 113) = some ((1200 : Nat) : ℚ) :=
    pyfloat_lit _ 1200 (by decide) (by decide) (by decide)
  have h1 := claim_C9.1 pC9w "2026-10-12" trailer444 lineBadAmt [] [trailer444]
    ((45600 : Nat) : ℚ) ((1200 : Nat) : ℚ)
    (by decide) hfa hfb (by decide) (by simp) (by decide) (by decide)
  have h2 := claim_C9.2.1 pC9b "2026-10-12" trailerBadTotal (by decide)
    (Or.inl (by decide))
  have h3 := claim_C9.2.2 pC9t "2026-10-12" trailerBadCount
    ((45600 : Nat) : ℚ) ((1200 : Nat) : ℚ) [txNorm]
    (by decide) hfa2 hfb2 (by with_unfolding_all decide) (Or.inl (by decide))
  exact ⟨by decide, h1, by decide, h2, by decide, h3⟩

/-- Claim C10: when `_parse` aborts because transaction decoding raised (and
the trailer itself was readable), the statements list is exactly as before —
no statement dict is appended — but `self.currency_code` has already been
assigned from the trailer before the failure: the abort is atomic for the
statements list but not for the whole instance state. -/
theorem claim_C10 (p : G11Parser) (d t : String) (a b : ℚ) (e : PyErr)
    (ht : p.lines.getLast? = some t)
    (hfa : pyfloat (pySlice t 45 57) = some a)
    (hfb : pyfloat (pySlice t 101 113) = some b)
    (he : parseTransactions p.lines = Except.error e) :
    (G11parse p d).1.statements = p.statements ∧
    (G11parse p d).1.currency_code = some (pySlice t 128 131) ∧
    (G11parse p d).2 = Except.error e := by
  rw [G11parse_err p d t a b e ht hfa hfb he]
  exact ⟨rfl, rfl, rfl⟩

/-- Claim C10 witness: an unparseable date (`"20131301"`, month 13) aborts
transaction decoding; the statements list stays empty while the currency
code has been assigned from the trailer. -/
theorem claim_C10_witness :
    parseTransactions pC10.lines = Except.error PyErr.valueError ∧
    (G11parse pC10 "2026-10-12").1.statements = pC10.statements ∧
    (G11parse pC10 "2026-10-12").1.currency_code = some (pySlice trailer444 128 131) ∧
    (G11parse pC10 "2026-10-12").2 = Except.error PyErr.valueError := by
  have hfa : pyfloat (pySlice trailer444 45 57) = some ((45600 : Nat) : ℚ) :=
    pyfloat_lit _ 45600 (by decide) (by decide) (by decide)
  have hfb : pyfloat (pySlice trailer444 101 113) = some ((1200 : Nat) : ℚ) :=
    pyfloat_lit _ 1200 (by decide) (by decide) (by decide)
  have hp : pyfloat (pySlice lineBadDate 45 57) = some ((150000 : Nat) : ℚ) :=
    pyfloat_lit _ 150000 (by decide) (by decide) (by decide)
  have hdl : decodeLine lineBadDate = Except.error PyErr.valueError := by
    have hamt : decodeAmount (pySlice lineBadDate 45 57) =
        some (((150000 : Nat) : ℚ) / 100) := by
      simp [decodeAmount, hp]
    have hymd : strptimeYmd (pySlice lineBadDate 108 116) = none := by decide
    simp [decodeLine, hamt, hymd]
  have he : parseTransactions pC10.lines = Except.error PyErr.valueError := by
    have hs : pC10.lines = [] ++ lineBadDate :: [trailer444] := by decide
    rw [hs]
    exact parseTransactions_error_mid [] lineBadDate [trailer444] _ (by simp)
      (by decide) hdl
  have h := claim_C10 pC10 "2026-10-12" trailer444 ((45600 : Nat) : ℚ) ((1200 : Nat) : ℚ)
    PyErr.valueError (by decide) hfa hfb he
  exact ⟨he, h.1, h.2.1, h.2.2⟩

/-- Claim C8: for every cents value `c` that fits the 12-character amount
field, decoding its fixed-width (zero-padded) text representation yields
exactly `c / 100` as an exact rational — two-decimal precision preserved. -/
theorem claim_C8 (c : Nat) (_hc : c < 10 ^ 12) :
    decodeAmount (fixedWidthRepr 12 c) = some ((c : ℚ) / 100) := by
  obtain ⟨h1, h2, h3⟩ := natDigits_spec c
  have hall : (List.replicate (12 - (natDigits c).length) '0' ++ natDigits c).all
      Char.isDigit = true := by
    rw [List.all_append, Bool.and_eq_true]
    refine ⟨?_, h2⟩
    rw [List.all_eq_true]
    intro x hx
    rw [List.eq_of_mem_replicate hx]
    decide
  have hne : (List.replicate (12 - (natDigits c).length) '0' ++ natDigits c) ≠ [] := by
    simp [h3]
  have hp := pyfloat_digits _ hne hall
  rw [digitsToNat_replicate_zero, h1] at hp
  rw [fixedWidthRepr, decodeAmount, hp]
  rfl

/-- Claim C8 witness: `"000000008368"` decodes to exactly 83.68. -/
theorem claim_C8_witness :
    8368 < 10 ^ 12 ∧
    decodeAmount (fixedWidthRepr 12 8368) = some (((8368 : Nat) : ℚ) / 100) ∧
    ((8368 : Nat) : ℚ) / 100 = 83 + 68 / 100 := by
  refine ⟨by norm_num, claim_C8 8368 (by norm_num), by norm_num⟩
